import Mathlib

/-!
Verification of the stealth-backend document ingestion and retrieval pipeline.

The JavaScript sources are shallowly embedded as pure Lean functions:
strings stay strings, JavaScript `Date.now()` timestamps become integers,
the outcomes of external collaborators (Supabase auth, storage, database,
the pdf/doc/ocr extraction libraries) are passed in as explicit arguments,
and the durable stores are explicit lists of keys.  Each route handler is
translated branch by branch from its source file.
-/

/-- Character-list model of JavaScript `String.prototype.trim`. -/
def jsTrim (s : String) : String :=
  ⟨((s.data.dropWhile Char.isWhitespace).reverse.dropWhile Char.isWhitespace).reverse⟩

/-- Character-list model of JavaScript `String.prototype.toLowerCase`. -/
def jsToLower (s : String) : String := ⟨s.data.map Char.toLower⟩

/-- Character-list model of JavaScript `String.prototype.length`. -/
def jsLength (s : String) : Nat := s.data.length

/-- Character-list model of JavaScript `str.substring(0, n)`. -/
def jsSubstr (s : String) (n : Nat) : String := ⟨s.data.take n⟩

/-- Model of JavaScript `Array.prototype.join(sep)` on an array of strings. -/
def jsJoin (sep : String) : List String → String
  | [] => ""
  | [a] => a
  | a :: b :: rest => a ++ sep ++ jsJoin sep (b :: rest)

/-- Model of JavaScript `String.prototype.includes`: `needle` occurs
contiguously inside `hay`. -/
abbrev strContains (hay needle : String) : Prop :=
  List.IsInfix needle.data hay.data

theorem strContains_head (b c : String) : strContains (b ++ c) b :=
  ⟨[], c.data, by simp [String.data_append]⟩

theorem strContains_cons (a : String) {h n : String} (hn : strContains h n) :
    strContains (a ++ h) n := by
  obtain ⟨l, r, hl⟩ := hn
  exact ⟨a.data ++ l, r, by simp [String.data_append, ← hl]⟩

theorem append_ne_empty_left (a b : String) (ha : a ≠ "") : a ++ b ≠ "" := by
  intro h
  apply ha
  have hd := congrArg String.data h
  rw [String.data_append] at hd
  rcases List.append_eq_nil.mp hd with ⟨ha', _⟩
  cases a
  cases b
  simp_all

/-! ## Rate limiter

`rateLimiter.isAllowed` appears verbatim in `routes/chat.js` (lines 6-28)
and in the documents route.  The per-key timestamp array of the JavaScript
`Map` is modelled as a list of integer timestamps for one fixed key. -/

namespace RateLimiter

/-- One call of `rateLimiter.isAllowed(key, maxRequests, windowMs)` at time
`now`, acting on the timestamp list stored for that key.  Returns the
admission verdict and the new stored list. -/
def isAllowed (times : List Int) (now : Int) (maxRequests : Nat) (windowMs : Int) :
    Bool × List Int :=
  let windowStart := now - windowMs
  let validRequests := times.filter (fun t => windowStart < t)
  if maxRequests ≤ validRequests.length then
    (false, validRequests)
  else
    (true, validRequests ++ [now])

/-- The sequence of verdicts produced by successive `isAllowed` calls for one
key, starting from stored list `times`. -/
def run (times : List Int) (calls : List Int) (maxRequests : Nat) (windowMs : Int) :
    List Bool :=
  match calls with
  | [] => []
  | c :: rest =>
    ((isAllowed times c maxRequests windowMs).1) ::
      run (isAllowed times c maxRequests windowMs).2 rest maxRequests windowMs

theorem run_take_true (N : Nat) (W : Int) :
    ∀ (calls : List Int) (s : List Int) (k : Nat), s.length ≤ k →
      ∀ b ∈ (run s calls N W).take (N - k), b = true := by
  intro calls
  induction calls with
  | nil => intro s k _ b hb; simp [run] at hb
  | cons c rest ih =>
    intro s k hs b hb
    by_cases hk : k < N
    · have hNk : N - k = (N - (k + 1)) + 1 := by omega
      have hlen : ((s.filter (fun t => c - W < t)).length) ≤ k :=
        le_trans (List.length_filter_le _ _) hs
      have hcond : ¬ (N ≤ (s.filter (fun t => c - W < t)).length) := by omega
      rw [run, hNk, List.take_succ_cons] at hb
      rcases List.mem_cons.mp hb with hbeq | hbmem
      · rw [hbeq]
        simp only [isAllowed, hcond]
        simp
      · have hstep : (isAllowed s c N W).2 = s.filter (fun t => c - W < t) ++ [c] := by
          simp only [isAllowed, hcond]
          simp
        rw [hstep] at hbmem
        refine ih _ (k + 1) ?_ b hbmem
        simp [hlen]
    · rw [Nat.sub_eq_zero_of_le (Nat.le_of_not_lt hk)] at hb
      simp at hb

end RateLimiter

/-- C3: for a fixed limiter key with parameters `maxRequests = N` and
`windowMs = W`, the sliding window admits exactly `N` calls per trailing
window: starting from a fresh key, the first `N` calls all return true; a
call made while `N` recorded admissions are still inside the trailing
window returns false; and a call made when every recorded admission is
older than `W` is admitted again. -/
theorem rateLimiter_sliding_window (N : Nat) (W : Int) (hN : 0 < N) :
    (∀ calls : List Int, ∀ b ∈ (RateLimiter.run [] calls N W).take N, b = true) ∧
    (∀ (s : List Int) (now : Int),
        N ≤ (s.filter (fun t => now - W < t)).length →
        (RateLimiter.isAllowed s now N W).1 = false) ∧
    (∀ (s : List Int) (now : Int),
        (∀ t ∈ s, W < now - t) →
        (RateLimiter.isAllowed s now N W).1 = true) := by
  refine ⟨?_, ?_, ?_⟩
  · intro calls b hb
    have h0 : N - 0 = N := rfl
    exact RateLimiter.run_take_true N W calls [] 0 (by simp) b (by rw [h0]; exact hb)
  · intro s now hfull
    simp only [RateLimiter.isAllowed, hfull]
    simp [hfull]
  · intro s now hold
    have hnil : s.filter (fun t => now - W < t) = [] := by
      rw [List.filter_eq_nil_iff]
      intro t ht
      have := hold t ht
      simp only [decide_eq_true_eq]
      omega
    have hN' : N ≠ 0 := Nat.pos_iff_ne_zero.mp hN
    simp only [RateLimiter.isAllowed, hnil]
    simp [hN']

theorem rateLimiter_sliding_window_witness :
    ((RateLimiter.run [] [0, 1, 2] 2 10).take 2 = [true, true] →
      ∀ b ∈ (RateLimiter.run [] [0, 1, 2] 2 10).take 2, b = true) ∧
    (RateLimiter.isAllowed [5, 6] 7 2 10).1 = false ∧
    (RateLimiter.isAllowed [0] 20 2 10).1 = true := by
  refine ⟨?_, ?_, ?_⟩
  · intro _
    exact (rateLimiter_sliding_window 2 10 (by decide)).1 [0, 1, 2]
  · exact (rateLimiter_sliding_window 2 10 (by decide)).2.1 [5, 6] 7 (by decide)
  · exact (rateLimiter_sliding_window 2 10 (by decide)).2.2 [0] 20 (by decide)

/-! ## Documents route: POST /api/documents

Translation of `router.post('/')` from the documents route file.  The
scratch filesystem (multer's `temp/` directory) and the durable object
store (the Supabase `documents` bucket) are explicit lists; the outcomes
of the external calls (auth lookup, rate limit verdict, profile status,
storage upload, metadata insert) are arguments.  `cleanupTempFile` and the
compensating `supabase.storage.remove` delete every occurrence of the
given path, so an existence check afterwards reports "not found". -/

namespace Documents

structure SysState where
  scratch : List String
  storage : List String
deriving DecidableEq

/-- `cleanupTempFile(filePath)`: idempotent removal of a scratch path. -/
def cleanupTempFile (scratch : List String) (p : String) : List String :=
  scratch.filter (fun q => q ≠ p)

/-- Existence check on the durable object store. -/
def objectExists (storage : List String) (key : String) : Bool :=
  storage.contains key

structure RouteResult where
  status : Nat
  state : SysState
deriving DecidableEq

/-- The upload handler.  `hasFile` says whether multer stored a scratch file
at `scratchPath` before the handler ran; `title` is the request title field
(`none` for missing or empty); `user` is the resolved bearer identity;
`rateAllowed` is the limiter verdict; `approved` is the profile status
check; `storageKey` is the generated object key; `uploadOk` and `insertOk`
are the storage-upload and metadata-insert outcomes. -/
def post (s0 : SysState) (hasFile : Bool) (scratchPath : String) (title : Option String)
    (user : Option String) (rateAllowed : Bool) (approved : Bool)
    (storageKey : String) (uploadOk : Bool) (insertOk : Bool) : RouteResult :=
  let s1 : SysState := if hasFile then ⟨scratchPath :: s0.scratch, s0.storage⟩ else s0
  if hasFile = false ∨ title = none then
    ⟨400, s1⟩
  else if user = none then
    ⟨401, ⟨cleanupTempFile s1.scratch scratchPath, s1.storage⟩⟩
  else if rateAllowed = false then
    ⟨429, ⟨cleanupTempFile s1.scratch scratchPath, s1.storage⟩⟩
  else if approved = false then
    ⟨403, ⟨cleanupTempFile s1.scratch scratchPath, s1.storage⟩⟩
  else if uploadOk = false then
    ⟨500, ⟨cleanupTempFile s1.scratch scratchPath, s1.storage⟩⟩
  else
    let s2 : SysState := ⟨s1.scratch, storageKey :: s1.storage⟩
    if insertOk = false then
      let s3 : SysState := ⟨s2.scratch, s2.storage.filter (fun k => k ≠ storageKey)⟩
      ⟨500, ⟨cleanupTempFile s3.scratch scratchPath, s3.storage⟩⟩
    else
      ⟨200, ⟨cleanupTempFile s2.scratch scratchPath, s2.storage⟩⟩

end Documents

/-- C1: when the storage upload succeeds and the metadata insert fails, the
handler removes the just-uploaded object before returning the 500 error,
so an existence check on the object key afterwards reports "not found" and
no orphaned object remains. -/
theorem documents_upload_rollback (s0 : Documents.SysState)
    (scratchPath storageKey t uid : String) :
    (Documents.post s0 true scratchPath (some t) (some uid) true true
        storageKey true false).status = 500 ∧
    Documents.objectExists
      (Documents.post s0 true scratchPath (some t) (some uid) true true
          storageKey true false).state.storage storageKey = false := by
  constructor
  · simp [Documents.post]
  · simp [Documents.post, Documents.objectExists, List.mem_filter]

/-- C2: evaluating the upload handler at the failing input — a request that
does attach a file but carries no title — shows the 400 early return on the
missing-title path leaves the multer scratch file on disk, violating the
scratch-cleanup invariant (every other exit path calls
`cleanupTempFile`). -/
theorem documents_scratch_leak_missing_title :
    (Documents.post ⟨[], []⟩ true "temp/file-1-499" none (some "u1") true true
        "k1" true true).status = 400 ∧
    "temp/file-1-499" ∈ (Documents.post ⟨[], []⟩ true "temp/file-1-499" none
        (some "u1") true true "k1" true true).state.scratch := by
  decide

/-! ## Extraction: extractTextFromFile (documents route)

Branch-by-branch translation of `extractTextFromFile(file, filePath)`.
The body of the matched format branch (fs read / pdf-parse / mammoth) is an
external call; its outcome is passed in: `ok raw` for a returned string,
`err msg` for a thrown error (handled by the surrounding catch).  The two
synthesized fallback texts are reproduced verbatim; `new Date().toLocaleDateString()`
is the `date` argument. -/

inductive ExtractOutcome where
  | ok (raw : String)
  | err (msg : String)
deriving DecidableEq

structure UploadedFile where
  originalname : String
  mimetype : String
  size : Nat
deriving DecidableEq

/-- `Math.round(file.size / 1024)` for a natural byte size. -/
def jsRoundKB (size : Nat) : Nat := (size + 512) / 1024

/-- The mimetype tests selecting an extraction branch: `text/plain`,
`application/pdf`, `includes('wordprocessingml')`, `includes('msword')`. -/
def dispatchMatches (mimetype : String) : Prop :=
  mimetype = "text/plain" ∨ mimetype = "application/pdf" ∨
    strContains mimetype "wordprocessingml" ∨ strContains mimetype "msword"

instance (mimetype : String) : Decidable (dispatchMatches mimetype) := by
  unfold dispatchMatches
  infer_instance

/-- `file.mimetype.includes('pdf') ? 'PDF' : file.mimetype.includes('word') ? 'Word' : 'document'`. -/
def docKindWord (mimetype : String) : String :=
  if strContains mimetype "pdf" then "PDF"
  else if strContains mimetype "word" then "Word"
  else "document"

/-- The "extraction too short / not successful" fallback text. -/
def shortFallback (file : UploadedFile) (date : String) : String :=
  "Document: " ++ (file.originalname ++ ("\n\nThis is a " ++ (docKindWord file.mimetype ++
    (" file uploaded to the platform.\n\nFile Details:\n- Original Name: " ++
    (file.originalname ++ ("\n- Type: " ++ (file.mimetype ++ ("\n- Size: " ++
    ((toString (jsRoundKB file.size) ++ " KB") ++ ("\n- Upload Date: " ++ (date ++
    "\n\nNote: Text extraction was not successful for this file. For better analysis, please ensure the document contains readable text content.")))))))))))

/-- The "extraction threw an error" fallback text. -/
def errorFallback (file : UploadedFile) (msg : String) (date : String) : String :=
  "Document: " ++ (file.originalname ++
    ("\n\nThis document has been uploaded but text extraction encountered an error.\n\nFile Details:\n- Original Name: " ++
    (file.originalname ++ ("\n- Size: " ++ ((toString (jsRoundKB file.size) ++ " KB") ++
    ("\n- Upload Date: " ++ (date ++ ("\n\nError during text extraction: " ++ (msg ++
    "\n\nPlease try re-uploading the document or contact support if the issue persists.")))))))))

/-- `extractTextFromFile`: dispatch on mimetype, substitute the short
fallback when the branch result is missing or under 50 trimmed characters,
and recover a thrown extraction error into the error fallback. -/
def extractTextFromFile (file : UploadedFile) (outcome : ExtractOutcome) (date : String) :
    String :=
  if dispatchMatches file.mimetype then
    match outcome with
    | .ok raw =>
      if raw = "" ∨ jsLength (jsTrim raw) < 50 then shortFallback file date else raw
    | .err msg => errorFallback file msg date
  else
    shortFallback file date

theorem shortFallback_contains_name (file : UploadedFile) (date : String) :
    strContains (shortFallback file date) file.originalname := by
  unfold shortFallback
  exact strContains_cons _ (strContains_head _ _)

theorem shortFallback_contains_size (file : UploadedFile) (date : String) :
    strContains (shortFallback file date) (toString (jsRoundKB file.size) ++ " KB") := by
  unfold shortFallback
  exact strContains_cons _ (strContains_cons _ (strContains_cons _ (strContains_cons _
    (strContains_cons _ (strContains_cons _ (strContains_cons _ (strContains_cons _
      (strContains_cons _ (strContains_head _ _)))))))))

/-- C4: if the matched extractor returns text with at least 50 trimmed
characters, the dispatcher returns it unchanged; under 50 trimmed
characters (including exactly 49 and the empty string) it returns the
synthesized fallback, which contains the original filename and the file
size. -/
theorem extractText_threshold (file : UploadedFile) (raw date : String)
    (hdisp : dispatchMatches file.mimetype) :
    (50 ≤ jsLength (jsTrim raw) → extractTextFromFile file (.ok raw) date = raw) ∧
    (jsLength (jsTrim raw) < 50 →
      extractTextFromFile file (.ok raw) date = shortFallback file date ∧
      strContains (shortFallback file date) file.originalname ∧
      strContains (shortFallback file date) (toString (jsRoundKB file.size) ++ " KB")) := by
  constructor
  · intro hlong
    have hne : ¬ (raw = "" ∨ jsLength (jsTrim raw) < 50) := by
      rintro (hraw | hshort)
      · rw [hraw] at hlong
        simp [jsTrim, jsLength] at hlong
      · omega
    simp only [extractTextFromFile, if_pos hdisp, if_neg hne]
  · intro hshort
    refine ⟨?_, shortFallback_contains_name file date, shortFallback_contains_size file date⟩
    simp only [extractTextFromFile, if_pos hdisp]
    rw [if_pos (Or.inr hshort)]

theorem extractText_threshold_witness :
    (dispatchMatches "application/pdf" ∧
      50 ≤ jsLength (jsTrim "b2c3d4e5f6g7h8i9j0k1l2m3n4o5p6q7r8s9t0u1v2w3x4y5z6") ∧
      extractTextFromFile ⟨"report.pdf", "application/pdf", 2048⟩
          (.ok "b2c3d4e5f6g7h8i9j0k1l2m3n4o5p6q7r8s9t0u1v2w3x4y5z6") "1/1/2026" =
        "b2c3d4e5f6g7h8i9j0k1l2m3n4o5p6q7r8s9t0u1v2w3x4y5z6") ∧
    (jsLength (jsTrim "b2c3d4e5f6g7h8i9j0k1l2m3n4o5p6q7r8s9t0u1v2w3x4y5z") < 50 ∧
      extractTextFromFile ⟨"report.pdf", "application/pdf", 2048⟩
          (.ok "b2c3d4e5f6g7h8i9j0k1l2m3n4o5p6q7r8s9t0u1v2w3x4y5z") "1/1/2026" =
        shortFallback ⟨"report.pdf", "application/pdf", 2048⟩ "1/1/2026") := by
  refine ⟨⟨by decide, by decide, ?_⟩, by decide, ?_⟩
  · exact (extractText_threshold ⟨"report.pdf", "application/pdf", 2048⟩
      "b2c3d4e5f6g7h8i9j0k1l2m3n4o5p6q7r8s9t0u1v2w3x4y5z6" "1/1/2026" (by decide)).1
      (by decide)
  · exact ((extractText_threshold ⟨"report.pdf", "application/pdf", 2048⟩
      "b2c3d4e5f6g7h8i9j0k1l2m3n4o5p6q7r8s9t0u1v2w3x4y5z" "1/1/2026" (by decide)).2
      (by decide)).1

theorem errorFallback_contains_name (file : UploadedFile) (msg date : String) :
    strContains (errorFallback file msg date) file.originalname := by
  unfold errorFallback
  exact strContains_cons _ (strContains_head _ _)

theorem errorFallback_contains_size (file : UploadedFile) (msg date : String) :
    strContains (errorFallback file msg date) (toString (jsRoundKB file.size) ++ " KB") := by
  unfold errorFallback
  exact strContains_cons _ (strContains_cons _ (strContains_cons _ (strContains_cons _
    (strContains_cons _ (strContains_head _ _)))))

theorem errorFallback_contains_msg (file : UploadedFile) (msg date : String) :
    strContains (errorFallback file msg date) msg := by
  unfold errorFallback
  exact strContains_cons _ (strContains_cons _ (strContains_cons _ (strContains_cons _
    (strContains_cons _ (strContains_cons _ (strContains_cons _ (strContains_cons _
      (strContains_cons _ (strContains_head _ _)))))))))

/-- C5: the dispatcher never propagates an extractor error: a thrown error
is converted to the synthesized error-fallback text, which contains the
original filename, the file size, and the thrown error's message. -/
theorem extractText_error_fallback (file : UploadedFile) (msg date : String)
    (hdisp : dispatchMatches file.mimetype) :
    extractTextFromFile file (.err msg) date = errorFallback file msg date ∧
    strContains (errorFallback file msg date) file.originalname ∧
    strContains (errorFallback file msg date) (toString (jsRoundKB file.size) ++ " KB") ∧
    strContains (errorFallback file msg date) msg := by
  refine ⟨?_, errorFallback_contains_name file msg date,
    errorFallback_contains_size file msg date, errorFallback_contains_msg file msg date⟩
  simp only [extractTextFromFile, if_pos hdisp]

theorem extractText_error_fallback_witness :
    extractTextFromFile ⟨"scan.pdf", "application/pdf", 4096⟩
        (.err "bad xref") "1/1/2026" =
      errorFallback ⟨"scan.pdf", "application/pdf", 4096⟩ "bad xref" "1/1/2026" ∧
    strContains (errorFallback ⟨"scan.pdf", "application/pdf", 4096⟩ "bad xref" "1/1/2026")
      "bad xref" :=
  ⟨(extractText_error_fallback ⟨"scan.pdf", "application/pdf", 4096⟩
      "bad xref" "1/1/2026" (by decide)).1,
    (extractText_error_fallback ⟨"scan.pdf", "application/pdf", 4096⟩
      "bad xref" "1/1/2026" (by decide)).2.2.2⟩

/-! ## The /extract route and format dispatch

`getServiceForFile` and the `/extract` handler from the microservice entry
file.  On this route the per-format services throw on failure and the
route rethrows (HTTP 500); the synthesized fallback text exists only in
the documents route's `extractTextFromFile`. -/

inductive ServiceKind where
  | pdf | doc | ocr
deriving DecidableEq

/-- `getServiceForFile(mimetype)`. -/
def getServiceForFile (mimetype : String) : Option ServiceKind :=
  if mimetype = "application/pdf" then some .pdf
  else if mimetype = "application/msword" ∨
      mimetype = "application/vnd.openxmlformats-officedocument.wordprocessingml.document" then
    some .doc
  else if mimetype.data.take 6 = "image/".data then some .ocr
  else none

/-- The mimetypes admitted by the `/extract` route's multer `fileFilter`;
any other mimetype is rejected with a plain `Error('Unsupported file type')`
before the handler runs. -/
def extractAllowedTypes : List String :=
  ["application/pdf", "application/msword",
    "application/vnd.openxmlformats-officedocument.wordprocessingml.document",
    "image/png", "image/jpeg", "image/jpg", "image/gif", "image/bmp", "image/tiff"]

inductive ExtractResponse where
  | noFile
  | unsupportedType
  | extracted (text : String)
  | serverError
  | filterRejected
deriving DecidableEq

/-- The HTTP status carried by each response: the handler's missing-file
and unsupported-type returns are 400, success is 200, a rethrown storage
or extraction error is 500, and the multer `fileFilter` rejection is a
plain (non-multer) `Error` that the error-handling middleware — which
grants 400 only to `MulterError LIMIT_FILE_SIZE` — answers with 500. -/
def responseStatus : ExtractResponse → Nat
  | .noFile => 400
  | .unsupportedType => 400
  | .extracted _ => 200
  | .serverError => 500
  | .filterRejected => 500

/-- A whole `POST /extract` request: multer's `fileFilter` screens the
uploaded file's mimetype before the handler runs; then the handler checks
for the file, uploads and downloads through storage, dispatches by
`getServiceForFile`, and extracts.  External outcomes are arguments; the
response constructor records which exit was taken. -/
def extractRequest (hasFile : Bool) (mimetype : String) (uploadOk downloadOk : Bool)
    (svcOutcome : ExtractOutcome) : ExtractResponse :=
  if hasFile && decide (mimetype ∉ extractAllowedTypes) then .filterRejected
  else if hasFile = false then .noFile
  else if uploadOk = false then .serverError
  else if downloadOk = false then .serverError
  else
    match getServiceForFile mimetype with
    | none => .unsupportedType
    | some _ =>
      match svcOutcome with
      | .ok raw => .extracted raw
      | .err _ => .serverError

/-- The mimetypes admitted by the documents route's multer file filter:
`constants.FILES.ALLOWED_TYPES.PDF ++ ALLOWED_TYPES.DOCUMENT`. -/
def documentsAllowedTypes : List String :=
  ["application/pdf", "application/msword",
    "application/vnd.openxmlformats-officedocument.wordprocessingml.document",
    "text/plain"]

/-- C6 fails as stated at a concrete input: `application/zip` has no
matching extractor, yet a `/extract` request carrying it is not answered
with the 400 unsupported-type response — the multer `fileFilter` rejects
it first and the error middleware surfaces a 500 — so the claimed HTTP 400
never occurs. -/
theorem no_extractor_distinct_counterexample :
    getServiceForFile "application/zip" = none ∧
    extractRequest true "application/zip" true true (.ok "raw") ≠ .unsupportedType ∧
    responseStatus (extractRequest true "application/zip" true true (.ok "raw")) = 500 := by
  decide

/-- C6 (amended: the rejection is the file filter's 500, not an HTTP 400):
a declared content type with no matching extractor is rejected on the
`/extract` path before any extraction runs — by the multer file filter,
surfaced by the error middleware as a 500 — and never yields extracted or
fallback text; every type the `/extract` filter admits has a service (the
handler's 400 unsupported-type branch is unreachable), and on the
documents ingestion path every admitted type has a matching extraction
branch, so dispatch failure stays distinguishable from extraction failure
on every ingestion path. -/
theorem no_extractor_rejected_before_extraction (mimetype : String)
    (uploadOk downloadOk : Bool) (svcOutcome : ExtractOutcome)
    (h : getServiceForFile mimetype = none) :
    extractRequest true mimetype uploadOk downloadOk svcOutcome = .filterRejected ∧
    responseStatus (extractRequest true mimetype uploadOk downloadOk svcOutcome) = 500 ∧
    (∀ text, extractRequest true mimetype uploadOk downloadOk svcOutcome ≠ .extracted text) ∧
    extractAllowedTypes.all (fun mt => (getServiceForFile mt).isSome) = true ∧
    documentsAllowedTypes.all (fun mt => decide (dispatchMatches mt)) = true := by
  have hall : extractAllowedTypes.all (fun mt => (getServiceForFile mt).isSome) = true := by
    decide
  have hnotmem : mimetype ∉ extractAllowedTypes := by
    intro hmem
    have hsome : ((getServiceForFile mimetype).isSome : Bool) = true :=
      List.all_eq_true.mp hall mimetype hmem
    rw [h] at hsome
    exact Bool.noConfusion hsome
  have hfr : extractRequest true mimetype uploadOk downloadOk svcOutcome = .filterRejected := by
    unfold extractRequest
    simp [hnotmem]
  refine ⟨hfr, by rw [hfr]; rfl, ?_, hall, by decide⟩
  intro text
  rw [hfr]
  intro hcontra
  exact ExtractResponse.noConfusion hcontra

theorem no_extractor_rejected_before_extraction_witness :
    extractRequest true "application/gzip" true true (.ok "raw") = .filterRejected ∧
    responseStatus (extractRequest true "application/gzip" true true (.ok "raw")) = 500 :=
  ⟨(no_extractor_rejected_before_extraction "application/gzip" true true
      (.ok "raw") (by decide)).1,
    (no_extractor_rejected_before_extraction "application/gzip" true true
      (.ok "raw") (by decide)).2.1⟩

/-! ## Chat route: context assembly and source attribution

Translation of `mentionsAttachment`, `enhanceContextForAttachments`,
`searchDocuments` and the document-context section of
`router.post('/stream')` in `routes/chat.js`.  The rows returned by the
Supabase fetch are the `docs` argument; a row's `content` column may be
null (`none`). -/

namespace Chat

structure FetchedDoc where
  id : String
  title : String
  content : Option String
deriving DecidableEq

/-- JavaScript truthiness of `doc.content`: non-null and non-empty. -/
def contentTruthy (d : FetchedDoc) : Bool :=
  match d.content with
  | none => false
  | some c => decide (c ≠ "")

/-- The `searchDocuments` filter predicate:
`doc.content && doc.content.toLowerCase().includes(query.toLowerCase())`. -/
def matchesQuery (query : String) (d : FetchedDoc) : Bool :=
  match d.content with
  | none => false
  | some c => decide (c ≠ "") && decide (strContains (jsToLower c) (jsToLower query))

structure SourceChunk where
  document_id : String
  document_title : String
  content : String
  similarity : ℚ
deriving DecidableEq

/-- The fixed mock similarity score assigned on the match path. -/
def mockSimilarity : ℚ := 8 / 10

/-- The fixed score used when no chunk matched and all fetched documents
with content are listed instead. -/
def fallbackSimilarity : ℚ := 95 / 100

/-- `searchDocuments(query, documentIds, threshold, limit)`: naive substring
match over the fetched rows, capped at `lim` results. -/
def searchDocuments (query : String) (docs : List FetchedDoc) (lim : Nat) :
    List SourceChunk :=
  ((docs.filter (matchesQuery query)).take lim).map
    (fun d => ⟨d.id, d.title, d.content.getD "", mockSimilarity⟩)

/-- `content.substring(0, 300) + (content.length > 300 ? '...' : '')`. -/
def excerpt (c : String) : String :=
  jsSubstr c 300 ++ (if 300 < jsLength c then "..." else "")

/-- `doc.content && doc.content.trim().length > 20`. -/
def sufficientContent (d : FetchedDoc) : Bool :=
  match d.content with
  | none => false
  | some c => decide (20 < jsLength (jsTrim c))

def docDelimited (d : FetchedDoc) : String :=
  "=== DOCUMENT: " ++ (d.title ++ (" ===\n\n" ++
    ((d.content.getD "") ++ "\n\n=== END DOCUMENT ===")))

def noContentNote (d : FetchedDoc) : String :=
  "Document \"" ++ (d.title ++ "\" was selected but contains no readable content.")

/-- The primary context string built from the fetched documents. -/
def assembleContext (docs : List FetchedDoc) : String :=
  let withContent := docs.filter sufficientContent
  if withContent.length > 0 then
    jsJoin "\n\n" (withContent.map docDelimited)
  else
    jsJoin "\n" (docs.map noContentNote)

/-- The source-attribution list: the match-path chunks if any, otherwise
all fetched documents with truthy content at the higher fixed score. -/
def assembleSources (query : String) (docs : List FetchedDoc) : List SourceChunk :=
  let relevantChunks := searchDocuments query docs 8
  if relevantChunks.length > 0 then
    relevantChunks.map (fun ch => ⟨ch.document_id, ch.document_title,
      excerpt ch.content, ch.similarity⟩)
  else
    (docs.filter contentTruthy).map
      (fun d => ⟨d.id, d.title, excerpt (d.content.getD ""), fallbackSimilarity⟩)

def attachmentKeywords : List String :=
  ["attachment", "document", "file", "pdf", "doc", "uploaded"]

def mentionsAttachment (query : String) : Bool :=
  attachmentKeywords.any (fun k => decide (strContains (jsToLower query) k))

def attachmentPreamble : String :=
  "The user has mentioned attachments or documents. Here is the relevant content from their uploaded documents:\n\n"

def enhanceContextForAttachments (context : String) : String :=
  attachmentPreamble ++ context

/-- The context built by the stream handler: empty unless the fetch
returned at least one row (`selectedDocuments.length > 0`). -/
def processContext (docs : List FetchedDoc) : String :=
  if docs.length > 0 then assembleContext docs else ""

/-- The source list built by the stream handler. -/
def processSources (query : String) (docs : List FetchedDoc) : List SourceChunk :=
  if docs.length > 0 then assembleSources query docs else []

/-- The context string as returned, after the attachment-intent reframing
(`if (userMentionsAttachment && context)`). -/
def finalContext (query : String) (docs : List FetchedDoc) : String :=
  let c := processContext docs
  if mentionsAttachment query && decide (c ≠ "") then enhanceContextForAttachments c else c

end Chat

theorem jsJoin_ne_empty (sep : String) :
    ∀ l : List String, l ≠ [] → (∀ x ∈ l, x ≠ "") → jsJoin sep l ≠ ""
  | [], h, _ => absurd rfl h
  | [a], _, hx => by simpa [jsJoin] using hx a (by simp)
  | a :: b :: rest, _, hx => by
    show a ++ sep ++ jsJoin sep (b :: rest) ≠ ""
    exact append_ne_empty_left _ _ (append_ne_empty_left _ _ (hx a (by simp)))

theorem assembleContext_ne_empty (docs : List Chat.FetchedDoc) (hne : docs ≠ []) :
    Chat.assembleContext docs ≠ "" := by
  unfold Chat.assembleContext
  by_cases hwc : (docs.filter Chat.sufficientContent).length > 0
  · rw [if_pos hwc]
    apply jsJoin_ne_empty
    · intro hmap
      rw [List.map_eq_nil_iff] at hmap
      rw [hmap] at hwc
      simp at hwc
    · intro x hx
      rw [List.mem_map] at hx
      obtain ⟨d, _, rfl⟩ := hx
      exact append_ne_empty_left _ _ (by decide)
  · rw [if_neg hwc]
    apply jsJoin_ne_empty
    · intro hmap
      rw [List.map_eq_nil_iff] at hmap
      exact hne hmap
    · intro x hx
      rw [List.mem_map] at hx
      obtain ⟨d, _, rfl⟩ := hx
      exact append_ne_empty_left _ _ (by decide)

/-- C7 fails as stated at a concrete input: the query "attachment" carries
an attachment keyword and the fetched document set is empty (so no
document body contains the query), yet the returned context string is not
prefixed with the attachment-reference explanation — the handler only
builds (and only reframes) a context when the fetch returned at least one
row. -/
theorem chat_attachment_fallback_counterexample :
    Chat.mentionsAttachment "attachment" = true ∧
    (∀ d ∈ ([] : List Chat.FetchedDoc), Chat.matchesQuery "attachment" d = false) ∧
    ¬ ∃ rest, Chat.finalContext "attachment" [] = Chat.attachmentPreamble ++ rest := by
  refine ⟨by decide, by simp, ?_⟩
  rintro ⟨rest, h⟩
  have h0 : Chat.finalContext "attachment" [] = "" := by decide
  rw [h0] at h
  exact append_ne_empty_left Chat.attachmentPreamble rest (by decide) h.symm

/-- C7 (amended: at least one document is fetched): for a query containing
an attachment keyword and a non-empty fetched set in which no document
body contains the query case-insensitively, the sources list is exactly
the fetched documents with truthy content — excerpts truncated to 300
characters with an ellipsis iff longer, at the fixed score 0.95, above the
match-path score 0.8 — and the returned context is prefixed with the
attachment-reference explanation. -/
theorem chat_attachment_fallback (query : String) (docs : List Chat.FetchedDoc)
    (hq : Chat.mentionsAttachment query = true)
    (hne : docs ≠ [])
    (hnomatch : ∀ d ∈ docs, Chat.matchesQuery query d = false) :
    Chat.processSources query docs =
      (docs.filter Chat.contentTruthy).map
        (fun d => ⟨d.id, d.title,
          jsSubstr (d.content.getD "") 300 ++
            (if 300 < jsLength (d.content.getD "") then "..." else ""),
          Chat.fallbackSimilarity⟩) ∧
    Chat.mockSimilarity < Chat.fallbackSimilarity ∧
    ∃ rest, Chat.finalContext query docs = Chat.attachmentPreamble ++ rest := by
  have hlen : docs.length > 0 := List.length_pos.mpr hne
  have hfilter : docs.filter (Chat.matchesQuery query) = [] := by
    rw [List.filter_eq_nil_iff]
    intro d hd
    rw [hnomatch d hd]
    simp
  have hsearch : Chat.searchDocuments query docs 8 = [] := by
    unfold Chat.searchDocuments
    rw [hfilter]
    rfl
  refine ⟨?_, by norm_num [Chat.mockSimilarity, Chat.fallbackSimilarity], ?_⟩
  · unfold Chat.processSources Chat.assembleSources
    rw [if_pos hlen, hsearch]
    simp [Chat.excerpt]
  · have hctx : Chat.processContext docs = Chat.assembleContext docs := by
      unfold Chat.processContext
      rw [if_pos hlen]
    have hcne : Chat.processContext docs ≠ "" := by
      rw [hctx]
      exact assembleContext_ne_empty docs hne
    refine ⟨Chat.processContext docs, ?_⟩
    unfold Chat.finalContext Chat.enhanceContextForAttachments
    rw [hq]
    simp [hcne]

theorem chat_attachment_fallback_witness :
    (Chat.mentionsAttachment "attachment" = true ∧
      (∀ d ∈ [(⟨"d1", "T1", some "the quarterly revenue grew"⟩ : Chat.FetchedDoc)],
        Chat.matchesQuery "attachment" d = false)) ∧
    ∃ rest, Chat.finalContext "attachment"
        [⟨"d1", "T1", some "the quarterly revenue grew"⟩] =
      Chat.attachmentPreamble ++ rest :=
  ⟨⟨by decide, by decide⟩,
    (chat_attachment_fallback "attachment"
      [⟨"d1", "T1", some "the quarterly revenue grew"⟩]
      (by decide) (by decide) (by decide)).2.2⟩

/-- C10: `searchDocuments` returns at most 8 source entries: exactly the
first 8 fetched documents (in fetch order) whose content contains the
query case-insensitively, each at the fixed similarity 0.8; matching
documents beyond the first 8 are omitted. -/
theorem searchDocuments_cap (query : String) (docs : List Chat.FetchedDoc) :
    (Chat.searchDocuments query docs 8).length =
      min (docs.filter (Chat.matchesQuery query)).length 8 ∧
    (Chat.searchDocuments query docs 8).map (fun s => s.document_id) =
      ((docs.filter (Chat.matchesQuery query)).take 8).map (fun d => d.id) ∧
    (Chat.searchDocuments query docs 8).all
      (fun s => decide (s.similarity = (8 : ℚ) / 10)) = true := by
  refine ⟨?_, ?_, ?_⟩
  · simp [Chat.searchDocuments, Nat.min_comm]
  · simp only [Chat.searchDocuments, List.map_map, List.map_take]
    rfl
  · rw [List.all_eq_true]
    intro s hs
    unfold Chat.searchDocuments at hs
    rw [List.mem_map] at hs
    obtain ⟨d, _, rfl⟩ := hs
    simp [Chat.mockSimilarity]

/-! ## OCR service: confidence post-filter

Translation of `OCRService.filterLowConfidenceText` and the text field
computed by `OCRService.extractText` (`filteredText || data.text.trim()`).
The Tesseract recognition result is the `OcrData` argument; `words` is
optional because the engine may omit the word list. -/

namespace OCR

structure OcrWord where
  text : String
  confidence : Int
deriving DecidableEq

structure OcrData where
  text : String
  words : Option (List OcrWord)
deriving DecidableEq

/-- `filterLowConfidenceText(data, minConfidence = 30)`. -/
def filterLowConfidenceText (data : OcrData) (minConfidence : Int) : String :=
  match data.words with
  | none => data.text
  | some ws =>
    let filteredWords :=
      jsJoin " " ((ws.filter (fun w => minConfidence ≤ w.confidence)).map
        (fun w => w.text))
    if filteredWords = "" then data.text else filteredWords

/-- The `text` field returned by `extractText`:
`filterLowConfidenceText(data) || data.text.trim()`. -/
def extractTextField (data : OcrData) : String :=
  let filteredText := filterLowConfidenceText data 30
  if filteredText = "" then jsTrim data.text else filteredText

end OCR

/-- C8: when the recognition result carries a word list, the confidence
post-filter keeps exactly the words at confidence ≥ 30 joined
word-by-word, and the extractor returns that filtered text; if the
filtering would produce an empty string, the unfiltered recognized text is
returned instead. -/
theorem ocr_confidence_filter (data : OCR.OcrData) (ws : List OCR.OcrWord)
    (hws : data.words = some ws) :
    (jsJoin " " ((ws.filter (fun w => 30 ≤ w.confidence)).map (fun w => w.text)) ≠ "" →
      OCR.extractTextField data =
        jsJoin " " ((ws.filter (fun w => 30 ≤ w.confidence)).map (fun w => w.text))) ∧
    (jsJoin " " ((ws.filter (fun w => 30 ≤ w.confidence)).map (fun w => w.text)) = "" →
      OCR.extractTextField data = data.text) := by
  constructor
  · intro hjoin
    unfold OCR.extractTextField OCR.filterLowConfidenceText
    rw [hws]
    simp only [if_neg hjoin]
  · intro hjoin
    unfold OCR.extractTextField OCR.filterLowConfidenceText
    rw [hws]
    simp only [if_pos hjoin]
    by_cases htext : data.text = ""
    · rw [if_pos htext, htext]
      rfl
    · rw [if_neg htext]

theorem ocr_confidence_filter_witness :
    (jsJoin " " ((([⟨"low", 10⟩, ⟨"good", 80⟩, ⟨"fine", 45⟩] :
          List OCR.OcrWord).filter (fun w => 30 ≤ w.confidence)).map
        (fun w => w.text)) = "good fine" ∧
      OCR.extractTextField ⟨"low good fine", some [⟨"low", 10⟩, ⟨"good", 80⟩, ⟨"fine", 45⟩]⟩ =
        "good fine") ∧
    OCR.extractTextField ⟨"low faint", some [⟨"low", 10⟩, ⟨"faint", 5⟩]⟩ = "low faint" := by
  refine ⟨⟨by decide, ?_⟩, ?_⟩
  · have h := (ocr_confidence_filter
      ⟨"low good fine", some [⟨"low", 10⟩, ⟨"good", 80⟩, ⟨"fine", 45⟩]⟩
      [⟨"low", 10⟩, ⟨"good", 80⟩, ⟨"fine", 45⟩] rfl).1 (by decide)
    rw [h]
    decide
  · exact (ocr_confidence_filter ⟨"low faint", some [⟨"low", 10⟩, ⟨"faint", 5⟩]⟩
      [⟨"low", 10⟩, ⟨"faint", 5⟩] rfl).2 (by decide)

/-! ## Conversations route: POST /api/conversations/generate-title

Translation of the status-code cascade of `router.post('/generate-title')`
in `routes/conversations.js`.  External outcomes (auth lookup, profile
row, conversation row, title update) are arguments; `convOwner` is the
`user_id` column of the conversation row when the lookup succeeded. -/

namespace Conversations

/-- The HTTP status returned by the generate-title handler. -/
def generateTitleStatus (validBody : Bool) (user : Option String)
    (profileStatus : Option String) (convOwner : Option String)
    (updateOk : Bool) : Nat :=
  if validBody = false then 400
  else
    match user with
    | none => 401
    | some uid =>
      match profileStatus with
      | none => 403
      | some st =>
        if st ≠ "approved" then 403
        else
          match convOwner with
          | none => 404
          | some owner =>
            if owner ≠ uid then 404
            else if updateOk = false then 500 else 200

end Conversations

/-- C9: an authenticated, approved caller asking for a title on an existing
conversation owned by a different user receives 404, never 403 — the
handler folds "exists but not yours" into "not found". -/
theorem generate_title_hides_foreign_conversation (uid owner : String)
    (updateOk : Bool) (hne : owner ≠ uid) :
    Conversations.generateTitleStatus true (some uid) (some "approved")
        (some owner) updateOk = 404 ∧
    Conversations.generateTitleStatus true (some uid) (some "approved")
        (some owner) updateOk ≠ 403 := by
  have h : Conversations.generateTitleStatus true (some uid) (some "approved")
      (some owner) updateOk = 404 := by
    unfold Conversations.generateTitleStatus
    simp [hne]
  exact ⟨h, by rw [h]; decide⟩

theorem generate_title_hides_foreign_conversation_witness :
    Conversations.generateTitleStatus true (some "user-a") (some "approved")
        (some "user-b") true = 404 :=
  (generate_title_hides_foreign_conversation "user-a" "user-b" true (by decide)).1
